import Mathlib

/-!
Verification of the query-and-caching service layer of a read-only movie
gateway (films / genres / persons over a search engine and a cache).

The definitions below are a shallow embedding of the Python source:

* `CommonQueryParams` — `src/utils/params.py`
* `fromOffset`, `sortClause`, `buildSort`, `buildESQuery` — query
  construction in `ElasticSearchService._search`
  (`src/services/search/elastic.py`)
* `Film`, `Genre`, `Person`, `PersonFilm`, `FilmPerson` — `src/models/model.py`
* serialization (`dump…`) and validation (`validate…`) — the pydantic
  `model_dump_json` / `model_validate_json` round trip, modelled at the
  level of JSON trees
* `ServiceDef`, `serviceGetById`, `getFromCache`, `putToCache`,
  `getByTextField` — `src/services/service.py`
* `genreGetById` — `src/services/genre.py`
* `filmSearchHydrate`, `nestedObjectsFor`, `getPersonFilmsModel` —
  `src/services/film.py`
* `getRolesFromFilmworks` — `src/services/person.py`
* `redisCacheGet`, `redisCachePut` — `src/db/cache.py`

External collaborators (the search engine, the Redis backend, the pydantic
library) are not repository code; where a claim depends on their behaviour
they are modelled explicitly (`nestedClauseMatches`, `boolMatches`,
`RedisOutcome`) following the external-interface description of the spec.
-/

/-- `dataclass CommonQueryParams` from `src/utils/params.py`: page number
(default 1), page size (default 10), list of sort directives (default empty).
Python integers are unbounded and signed, hence `Int`. -/
structure CommonQueryParams where
  page_number : Int := 1
  page_size : Int := 10
  sort : List String := []
deriving Repr, DecidableEq

/-- The offset computed in `ElasticSearchService._search` (elastic.py line 68):
`from_ = 0 if params.page_number == 1 else params.page_size * params.page_number - params.page_size`. -/
def fromOffset (params : CommonQueryParams) : Int :=
  if params.page_number = 1 then 0
  else params.page_size * params.page_number - params.page_size

/-- Sort direction of a sort clause sent to the engine. -/
inductive SortDir where
  | asc
  | desc
deriving Repr, DecidableEq

/-- One element of the comprehension on elastic.py line 70:
`{sort_field[1:]: "desc"} if sort_field[0] == "-" else {sort_field: "asc"}`.
Python raises `IndexError` on `sort_field[0]` when the directive is the empty
string; that failure is represented by `none`. -/
def sortClause (sort_field : String) : Option (String × SortDir) :=
  match sort_field.data with
  | [] => none
  | c :: rest => if c = '-' then some (String.mk rest, SortDir.desc)
                 else some (sort_field, SortDir.asc)

/-- Evaluate a fallible function over a list, failing at the first failure —
the shape of a Python list comprehension whose body may raise. -/
def mapOption (f : α → Option β) : List α → Option (List β)
  | [] => some []
  | a :: t =>
    match f a with
    | none => none
    | some b => (mapOption f t).map (fun l => b :: l)

/-- The full sort list of `_search` (elastic.py lines 70-71): the comprehension
over `params.sort` followed by `sort.append({"_score": "desc"})`.  `none` when
any directive makes the comprehension raise. -/
def buildSort (sort : List String) : Option (List (String × SortDir)) :=
  (mapOption sortClause sort).map (fun l => l ++ [("_score", SortDir.desc)])

/-- The (field, direction) resolution that the spec describes for sort
directives: a directive with a leading `-` resolves to the field without the
`-`, descending; any other directive resolves to itself, ascending.  Stated
from the spec's words, to be compared with the source-level `sortClause`. -/
def sortDirectiveSpec (s : String) : String × SortDir :=
  match s.data with
  | '-' :: rest => (String.mk rest, SortDir.desc)
  | _ => (s, SortDir.asc)

/-! ### Data model (`src/models/model.py`) -/

/-- `PersonFilm`: a film id together with the person's roles in it. -/
structure PersonFilm where
  id : String
  roles : List String := []
deriving Repr, DecidableEq

/-- `Person`: id, full name, lazily populated film/role list. -/
structure Person where
  id : String
  full_name : String
  films : List PersonFilm := []
deriving Repr, DecidableEq

/-- `Genre`: id, name, nullable description (required field, may be null). -/
structure Genre where
  id : String
  name : String
  description : Option String
deriving Repr, DecidableEq

/-- `FilmPerson`: an (id, name) person reference embedded in a film. -/
structure FilmPerson where
  id : String
  name : String
deriving Repr, DecidableEq

/-- `Film`: the full film document.  The nullable `imdb_rating` is a JSON
number; JSON numbers are decimal literals, modelled as rationals. -/
structure Film where
  id : String
  title : String
  description : Option String
  imdb_rating : Option Rat
  actors : List FilmPerson := []
  writers : List FilmPerson := []
  directors : List FilmPerson := []
  genres : List String := []
  actors_names : List String := []
  writers_names : List String := []
  directors_names : List String := []
deriving Repr, DecidableEq

/-! ### JSON trees and the pydantic serialization round trip

The cache stores `item.model_dump_json()` and reads it back through
`model_validate_json`.  Serialized snapshots are modelled as JSON trees
(`Json`); pydantic's validation looks fields up by name, uses the declared
default when a field with a default is missing, rejects a missing required
field, and accepts `null` for nullable fields. -/

/-- A JSON value, as far as the entity models need it. -/
inductive Json where
  | null
  | str (s : String)
  | num (q : Rat)
  | arr (elems : List Json)
  | obj (fields : List (String × Json))
deriving Repr

/-- Extract a JSON string. -/
def Json.asStr : Json → Option String
  | .str s => some s
  | _ => none

/-- Extract a nullable JSON string (`str | None` fields). -/
def Json.asOptStr : Json → Option (Option String)
  | .null => some none
  | .str s => some (some s)
  | _ => none

/-- Extract a nullable JSON number (`float | None` fields). -/
def Json.asOptNum : Json → Option (Option Rat)
  | .null => some none
  | .num q => some (some q)
  | _ => none

/-- Extract a JSON array and validate each element. -/
def Json.asArrOf (f : Json → Option α) : Json → Option (List α)
  | .arr elems => mapOption f elems
  | _ => none

/-- Look a field up in a JSON object's field list (pydantic validation is
name-based). -/
def Json.field (name : String) : Json → Option Json
  | .obj fields => fields.lookup name
  | _ => none

/-- Python truthiness of a JSON value: `None`, `""`, `0`, `[]` and `{}` are
falsy, everything else is truthy.  The `if item_dict := ...:` and
`if genre_dict:` guards of the services test exactly this on the engine's
raw document. -/
def Json.truthy : Json → Bool
  | .null => false
  | .str s => if s = "" then false else true
  | .num q => if q = 0 then false else true
  | .arr elems => !elems.isEmpty
  | .obj fields => !fields.isEmpty

/-- A required field: validation fails when it is absent. -/
def requiredField (name : String) (f : Json → Option α) (j : Json) : Option α :=
  (j.field name).bind f

/-- A field with a default: the default is used when it is absent. -/
def defaultedField (name : String) (f : Json → Option α) (default : List α)
    (j : Json) : Option (List α) :=
  match j.field name with
  | none => some default
  | some v => v.asArrOf f

/-- `Genre.model_dump_json`, as a JSON tree. -/
def dumpGenre (g : Genre) : Json :=
  .obj [("id", .str g.id), ("name", .str g.name),
        ("description", (g.description.map Json.str).getD .null)]

/-- `Genre.model_validate_json` / `Genre(**d)`. -/
def validateGenre (j : Json) : Option Genre := do
  let id ← requiredField "id" Json.asStr j
  let name ← requiredField "name" Json.asStr j
  let description ← requiredField "description" Json.asOptStr j
  pure { id := id, name := name, description := description }

/-- `PersonFilm.model_dump_json`, as a JSON tree. -/
def dumpPersonFilm (pf : PersonFilm) : Json :=
  .obj [("id", .str pf.id), ("roles", .arr (pf.roles.map Json.str))]

/-- `PersonFilm.model_validate_json` / `PersonFilm(**d)`. -/
def validatePersonFilm (j : Json) : Option PersonFilm := do
  let id ← requiredField "id" Json.asStr j
  let roles ← defaultedField "roles" Json.asStr [] j
  pure { id := id, roles := roles }

/-- `Person.model_dump_json`, as a JSON tree. -/
def dumpPerson (p : Person) : Json :=
  .obj [("id", .str p.id), ("full_name", .str p.full_name),
        ("films", .arr (p.films.map dumpPersonFilm))]

/-- `Person.model_validate_json` / `Person(**d)`. -/
def validatePerson (j : Json) : Option Person := do
  let id ← requiredField "id" Json.asStr j
  let full_name ← requiredField "full_name" Json.asStr j
  let films ← defaultedField "films" validatePersonFilm [] j
  pure { id := id, full_name := full_name, films := films }

/-- `FilmPerson.model_dump_json`, as a JSON tree. -/
def dumpFilmPerson (p : FilmPerson) : Json :=
  .obj [("id", .str p.id), ("name", .str p.name)]

/-- `FilmPerson.model_validate_json` / `FilmPerson(**d)`. -/
def validateFilmPerson (j : Json) : Option FilmPerson := do
  let id ← requiredField "id" Json.asStr j
  let name ← requiredField "name" Json.asStr j
  pure { id := id, name := name }

/-- `Film.model_dump_json`, as a JSON tree (fields in declaration order). -/
def dumpFilm (f : Film) : Json :=
  .obj [("id", .str f.id), ("title", .str f.title),
        ("description", (f.description.map Json.str).getD .null),
        ("imdb_rating", (f.imdb_rating.map Json.num).getD .null),
        ("actors", .arr (f.actors.map dumpFilmPerson)),
        ("writers", .arr (f.writers.map dumpFilmPerson)),
        ("directors", .arr (f.directors.map dumpFilmPerson)),
        ("genres", .arr (f.genres.map Json.str)),
        ("actors_names", .arr (f.actors_names.map Json.str)),
        ("writers_names", .arr (f.writers_names.map Json.str)),
        ("directors_names", .arr (f.directors_names.map Json.str))]

/-- `Film.model_validate_json` / `Film(**d)`. -/
def validateFilm (j : Json) : Option Film := do
  let id ← requiredField "id" Json.asStr j
  let title ← requiredField "title" Json.asStr j
  let description ← requiredField "description" Json.asOptStr j
  let imdb_rating ← requiredField "imdb_rating" Json.asOptNum j
  let actors ← defaultedField "actors" validateFilmPerson [] j
  let writers ← defaultedField "writers" validateFilmPerson [] j
  let directors ← defaultedField "directors" validateFilmPerson [] j
  let genres ← defaultedField "genres" Json.asStr [] j
  let actors_names ← defaultedField "actors_names" Json.asStr [] j
  let writers_names ← defaultedField "writers_names" Json.asStr [] j
  let directors_names ← defaultedField "directors_names" Json.asStr [] j
  pure { id := id, title := title, description := description,
         imdb_rating := imdb_rating, actors := actors, writers := writers,
         directors := directors, genres := genres,
         actors_names := actors_names, writers_names := writers_names,
         directors_names := directors_names }

/-- A JSON value with a present field is a non-empty object, hence truthy. -/
theorem Json.truthy_of_field (name : String) (j : Json) (v : Json)
    (h : j.field name = some v) : j.truthy = true := by
  cases j with
  | obj fields =>
    cases fields with
    | nil => simp [Json.field, List.lookup] at h
    | cons p t => simp [Json.truthy, List.isEmpty]
  | null => simp [Json.field] at h
  | str s => simp [Json.field] at h
  | num q => simp [Json.field] at h
  | arr elems => simp [Json.field] at h

/-- A document accepted by the `Genre` validator carries its required `id`
field, hence is a non-empty (truthy) object. -/
theorem validateGenre_truthy (j : Json) (a : Genre) (h : validateGenre j = some a) :
    j.truthy = true := by
  cases hid : Json.field "id" j with
  | none => rw [validateGenre, requiredField, hid] at h; simp at h
  | some v => exact Json.truthy_of_field "id" j v hid

/-- A document accepted by the `Person` validator carries its required `id`
field, hence is a non-empty (truthy) object. -/
theorem validatePerson_truthy (j : Json) (a : Person) (h : validatePerson j = some a) :
    j.truthy = true := by
  cases hid : Json.field "id" j with
  | none => rw [validatePerson, requiredField, hid] at h; simp at h
  | some v => exact Json.truthy_of_field "id" j v hid

/-- A document accepted by the `Film` validator carries its required `id`
field, hence is a non-empty (truthy) object. -/
theorem validateFilm_truthy (j : Json) (a : Film) (h : validateFilm j = some a) :
    j.truthy = true := by
  cases hid : Json.field "id" j with
  | none => rw [validateFilm, requiredField, hid] at h; simp at h
  | some v => exact Json.truthy_of_field "id" j v hid

/-- Mapping a fallible validator over the image of the matching serializer
succeeds and recovers the list. -/
theorem mapOption_map_of_inv (f : α → Option β) (g : β → α)
    (hfg : ∀ b, f (g b) = some b) (l : List β) :
    mapOption f (l.map g) = some l := by
  induction l with
  | nil => rfl
  | cons a t ih => simp [mapOption, hfg, ih]

/-- `Json.asStr` inverts `Json.str`. -/
theorem asStr_str (s : String) : Json.asStr (Json.str s) = some s := rfl

/-- `FilmPerson` serialization round trip. -/
theorem validateFilmPerson_dump (p : FilmPerson) :
    validateFilmPerson (dumpFilmPerson p) = some p := by
  simp [validateFilmPerson, dumpFilmPerson, requiredField, Json.field,
    List.lookup, Json.asStr]

/-- `Genre` serialization round trip. -/
theorem validateGenre_dump (g : Genre) :
    validateGenre (dumpGenre g) = some g := by
  cases g with
  | mk id name description =>
    cases description <;>
      simp [validateGenre, dumpGenre, requiredField, Json.field, List.lookup,
        Json.asStr, Json.asOptStr, Option.map, Option.getD]

/-- `PersonFilm` serialization round trip. -/
theorem validatePersonFilm_dump (pf : PersonFilm) :
    validatePersonFilm (dumpPersonFilm pf) = some pf := by
  simp [validatePersonFilm, dumpPersonFilm, requiredField, defaultedField,
    Json.field, List.lookup, Json.asStr, Json.asArrOf,
    mapOption_map_of_inv Json.asStr Json.str asStr_str]

/-- `Person` serialization round trip. -/
theorem validatePerson_dump (p : Person) :
    validatePerson (dumpPerson p) = some p := by
  simp [validatePerson, dumpPerson, requiredField, defaultedField,
    Json.field, List.lookup, Json.asStr, Json.asArrOf,
    mapOption_map_of_inv validatePersonFilm dumpPersonFilm validatePersonFilm_dump]

/-- `Film` serialization round trip. -/
theorem validateFilm_dump (f : Film) :
    validateFilm (dumpFilm f) = some f := by
  cases f with
  | mk id title description imdb_rating actors writers directors genres an wn dn =>
    cases description <;> cases imdb_rating <;>
      simp [validateFilm, dumpFilm, requiredField, defaultedField,
        Json.field, List.lookup, Json.asStr, Json.asOptStr, Json.asOptNum,
        Json.asArrOf, Option.map, Option.getD,
        mapOption_map_of_inv Json.asStr Json.str asStr_str,
        mapOption_map_of_inv validateFilmPerson dumpFilmPerson validateFilmPerson_dump]

/-! ### Cache store and generic entity service (`src/services/service.py`) -/

/-- `CACHE_EXPIRE_IN_SECONDS = 60 * 5` (service.py line 7). -/
def CACHE_EXPIRE_IN_SECONDS : Nat := 60 * 5

/-- Hydration failure: pydantic's `ValidationError`. -/
inductive ValidationFailure where
  | mk
deriving Repr, DecidableEq

/-- The cache's key space: each entry is (key, serialized value, ttl in
seconds); the most recent write for a key comes first. -/
abbrev CacheState := List (String × Json × Nat)

/-- Read a key from the cache (the stored ttl does not affect reads within
its window; expiry itself is the backend's clock and is not modelled). -/
def cacheLookup (st : CacheState) (key : String) : Option Json :=
  (st.lookup key).map Prod.fst

/-- One `Service` instance (service.py lines 13-18): its `entity_name`, the
id projection of its model, and the model's serializer and validator.
`validate_truthy` records the invariant shared by the three entity models:
every validator requires at least the `id` field, so a document it accepts
is a non-empty — in Python terms truthy — dict. -/
structure ServiceDef (α : Type) where
  entity_name : String
  idOf : α → String
  dump : α → Json
  validate : Json → Option α
  validate_truthy : ∀ j a, validate j = some a → j.truthy = true

/-- `Service._get_from_cache` (service.py lines 28-32): read
`"{entity_name}_{item_id}"`; absent data is a miss; present data is fed to
`model_validate_json`, whose failure raises. -/
def getFromCache (svc : ServiceDef α) (cache : CacheState) (item_id : String) :
    Except ValidationFailure (Option α) :=
  match cacheLookup cache (svc.entity_name ++ "_" ++ item_id) with
  | none => .ok none
  | some data =>
    match svc.validate data with
    | none => .error .mk
    | some item => .ok (some item)

/-- `Service._put_to_cache` (service.py lines 34-35): write the serialized
item under `"{entity_name}_{item.id}"` with `CACHE_EXPIRE_IN_SECONDS`. -/
def putToCache (svc : ServiceDef α) (cache : CacheState) (item : α) : CacheState :=
  (svc.entity_name ++ "_" ++ svc.idOf item, svc.dump item, CACHE_EXPIRE_IN_SECONDS) :: cache

/-- `Service.get_by_id` (service.py lines 20-26).  The engine is a function
from id to the raw document (or absent); the walrus guard
`if item_dict := await ...get_by_id(item_id):` skips hydration when the
engine reports absent or returns a falsy document (such as `{}`);
`self.model(**item_dict)` is the validator, whose failure raises out of the
method uncaught.  Returns the result together with the cache state after
the call. -/
def serviceGetById (svc : ServiceDef α) (cache : CacheState)
    (engine : String → Option Json) (item_id : String) :
    Except ValidationFailure (Option α × CacheState) :=
  match getFromCache svc cache item_id with
  | .error e => .error e
  | .ok (some item) => .ok (some item, cache)
  | .ok none =>
    match engine item_id with
    | none => .ok (none, cache)
    | some item_dict =>
      if item_dict.truthy then
        match svc.validate item_dict with
        | none => .error .mk
        | some item => .ok (some item, putToCache svc cache item)
      else .ok (none, cache)

/-- The call record of one `text_search` invocation: its keyword arguments. -/
structure SearchCall where
  search_fields : List String
  search_query : Option String
  params : Option CommonQueryParams
deriving Repr, DecidableEq

/-- `Service.get_by_text_field` (service.py lines 37-41): two successive
`text_search` calls with identical arguments (`oracle n` is the document
list the engine returns to the n-th call); the first result is shadowed by
the walrus reassignment; a non-empty second result is hydrated at index 0
(`model_validate`, raising on failure), an empty one falls through to
`None`.  Returns the result together with the list of calls issued. -/
def getByTextField (svc : ServiceDef α) (oracle : Nat → List Json)
    (search_field search_text : String) :
    Except ValidationFailure (Option α) × List SearchCall :=
  let _discarded := oracle 0
  let items := oracle 1
  let result : Except ValidationFailure (Option α) :=
    match items with
    | [] => .ok none
    | doc :: _ =>
      match svc.validate doc with
      | none => .error .mk
      | some item => .ok (some item)
  (result,
   [{ search_fields := [search_field], search_query := some search_text, params := none },
    { search_fields := [search_field], search_query := some search_text, params := none }])

/-- The film service: `entity_name="movies"`, model `Film` (film.py line 20). -/
def filmServiceDef : ServiceDef Film :=
  { entity_name := "movies", idOf := Film.id, dump := dumpFilm,
    validate := validateFilm, validate_truthy := validateFilm_truthy }

/-- The genre service: `entity_name="genres"`, model `Genre` (genre.py line 21). -/
def genreServiceDef : ServiceDef Genre :=
  { entity_name := "genres", idOf := Genre.id, dump := dumpGenre,
    validate := validateGenre, validate_truthy := validateGenre_truthy }

/-- The person service: `entity_name="persons"`, model `Person` (person.py line 22). -/
def personServiceDef : ServiceDef Person :=
  { entity_name := "persons", idOf := Person.id, dump := dumpPerson,
    validate := validatePerson, validate_truthy := validatePerson_truthy }

/-! ### Genre service (`src/services/genre.py`) and film hydration
(`src/services/film.py`) -/

/-- `GenreService.get_by_id` (genre.py lines 23-35).  Unlike the generic
`Service.get_by_id`, the engine fetch and hydration sit inside a
`try/except ValidationError` that logs and falls through to `None`; the
cache read is outside the `try`, so its failures still propagate.  The
guard `if genre_dict:` skips hydration (without logging) when the engine
reports absent or returns a falsy document such as `{}`.  The `Bool` in
the result records whether a validation failure was logged. -/
def genreGetById (cache : CacheState) (engine : String → Option Json)
    (genre_id : String) :
    Except ValidationFailure (Option Genre × CacheState × Bool) :=
  match getFromCache genreServiceDef cache genre_id with
  | .error e => .error e
  | .ok (some genre) => .ok (some genre, cache, false)
  | .ok none =>
    match engine genre_id with
    | none => .ok (none, cache, false)
    | some genre_dict =>
      if genre_dict.truthy then
        match validateGenre genre_dict with
        | none => .ok (none, cache, true)
        | some genre => .ok (some genre, putToCache genreServiceDef cache genre, false)
      else .ok (none, cache, false)

/-- Hydrate a list of raw documents, failing at the first validation
failure — the shape of `[Model(**raw) for raw in raws]`, where a
`ValidationError` raises out of the comprehension. -/
def hydrateList (validate : Json → Option α) : List Json →
    Except ValidationFailure (List α)
  | [] => .ok []
  | j :: t =>
    match validate j with
    | none => .error .mk
    | some a => (hydrateList validate t).map (fun l => a :: l)

/-- The hydration step of `FilmService.search` (film.py line 30):
`[Film(**film) for film in raw_films]` over the engine's raw hits. -/
def filmSearchHydrate (raw_films : List Json) : Except ValidationFailure (List Film) :=
  hydrateList validateFilm raw_films

/-! ### Engine query construction (`src/services/search/elastic.py`) and the
nested filters of `FilmService.get_person_films` (`src/services/film.py`) -/

/-- `PERSON_ROLES = ("actor", "director", "writer")` (film.py line 13). -/
def PERSON_ROLES : List String := ["actor", "director", "writer"]

/-- `NestedObjectQuery` (search/base.py lines 8-16): collection name, field
within it, term value to match. -/
structure NestedObjectQuery where
  name : String
  filter_field : String
  term_value : String
deriving Repr, DecidableEq

/-- The nested filters built by `FilmService.get_person_films` (film.py
lines 39-41): one per role, on path `f"{role}s"`, field `id`, with the
person id as term value. -/
def nestedObjectsFor (person_id : String) : List NestedObjectQuery :=
  PERSON_ROLES.map (fun role =>
    { name := role ++ "s", filter_field := "id", term_value := person_id })

/-- The boolean query assembled by `_search` (elastic.py lines 73-97):
`{"bool": {"must": [...], "should": [...]}}`.  Each `should` entry is the
nested clause `{"nested": {"path": n.name, "query": {"bool": {"filter":
{"term": {f"{n.name}.{n.filter_field}": n.term_value}}}}}}`, carried here as
the `NestedObjectQuery` that determines it; `must` keeps the raw text query
dict. -/
structure BoolQuery where
  must : List Json
  should : List NestedObjectQuery
deriving Repr

/-- Query assembly in `_search`: `must` holds the text query when present
(lines 75-76), `should` one nested clause per nested object (lines 81-97). -/
def buildESQuery (search_query : Option Json)
    (nested_objects : List NestedObjectQuery) : BoolQuery :=
  { must := search_query.toList, should := nested_objects }

/-- Model of the external engine: the nested sub-document collection of a
film document addressed by a nested path. -/
def filmNestedPath (f : Film) : String → List FilmPerson
  | "actors" => f.actors
  | "writers" => f.writers
  | "directors" => f.directors
  | _ => []

/-- Model of the external engine: field access inside a nested sub-document. -/
def filmPersonField (p : FilmPerson) : String → Option String
  | "id" => some p.id
  | "name" => some p.name
  | _ => none

/-- Model of the external engine (spec §6, §4.2): a nested term clause
matches a film document when some element of the addressed nested
collection has the addressed field equal to the term value. -/
def nestedClauseMatches (c : NestedObjectQuery) (f : Film) : Bool :=
  (filmNestedPath f c.name).any (fun p => filmPersonField p c.filter_field == some c.term_value)

/-- Model of the external engine's `bool` query: every `must` clause has to
match (text-query semantics supplied as `textSem`); with no `must` clause
and a non-empty `should` list, at least one `should` clause has to match,
otherwise `should` imposes no constraint. -/
def boolMatches (textSem : Json → Film → Bool) (q : BoolQuery) (f : Film) : Bool :=
  q.must.all (fun j => textSem j f) &&
    (if q.must.isEmpty && !q.should.isEmpty then
      q.should.any (fun c => nestedClauseMatches c f)
    else true)

/-- The `size`/`from_` window of `_search` (elastic.py lines 99-101) over
the matching hits. -/
def paginate (params : CommonQueryParams) (hits : List Film) : List Film :=
  (hits.drop (fromOffset params).toNat).take params.page_size.toNat

/-- Model of `get_list` → `_search` on the films index (no text query, so
the `textSem` argument of `boolMatches` is never consulted): the documents
matching the built query, in index order, paginated. -/
def engineListFilms (index : List Film) (params : CommonQueryParams)
    (nested_objects : List NestedObjectQuery) : List Film :=
  paginate params
    (index.filter (fun f =>
      boolMatches (fun _ _ => false) (buildESQuery none nested_objects) f))

/-- `FilmService.get_person_films` (film.py lines 38-45) against a films
index held as typed documents: build the three nested filters and list.
(The raw-document hydration step is the identity on documents that were
serialized from typed films, by the round-trip theorems above.) -/
def getPersonFilmsModel (index : List Film) (person_id : String)
    (params : CommonQueryParams) : List Film :=
  engineListFilms index params (nestedObjectsFor person_id)

/-! ### Role derivation (`src/services/person.py`) -/

/-- `getattr(filmwork, f"{role}s_names")` for the three roles of
`PERSON_ROLES` (person.py line 68). -/
def roleNames (f : Film) : String → List String
  | "actor" => f.actors_names
  | "director" => f.directors_names
  | "writer" => f.writers_names
  | _ => []

/-- `PersonService._get_roles_from_filmworks` (person.py lines 62-71): for
each film in order, a `PersonFilm` whose roles are the elements of
`PERSON_ROLES`, in order, whose flattened name list contains the person's
full name. -/
def getRolesFromFilmworks (person : Person) (person_filmworks : List Film) :
    List PersonFilm :=
  person_filmworks.map (fun filmwork =>
    { id := filmwork.id,
      roles := PERSON_ROLES.filter (fun role =>
        person.full_name ∈ roleNames filmwork role) })

/-! ### Redis cache adapter (`src/db/cache.py`) -/

/-- Outcome of one backend (Redis client) call: a value, or a
`redis.exceptions.ConnectionError`. -/
inductive RedisOutcome (α : Type) where
  | ok (a : α)
  | connError
deriving Repr, DecidableEq

/-- The failure a `RedisCache` method surfaces: either the repository's own
`ConnectionCacheError`, or the backend's `ConnectionError` escaping raw. -/
inductive CacheFailure where
  | connectionCacheError
  | redisConnectionError
deriving Repr, DecidableEq

/-- `RedisCache.get` (cache.py lines 37-43): the backend call sits in a
`try/except ConnectionError` that re-raises as `ConnectionCacheError`. -/
def redisCacheGet (backend : RedisOutcome (Option String)) :
    Except CacheFailure (Option String) :=
  match backend with
  | .ok v => .ok v
  | .connError => .error .connectionCacheError

/-- `RedisCache.put` (cache.py lines 45-48): the backend `set` call is not
wrapped, so a backend `ConnectionError` escapes as itself. -/
def redisCachePut (backend : RedisOutcome Unit) : Except CacheFailure Unit :=
  match backend with
  | .ok _ => .ok ()
  | .connError => .error .redisConnectionError

/-! ### Shared lemmas -/

/-- On a non-empty directive the source's character-level branch computes
exactly the spec's (field, direction) resolution. -/
theorem sortClause_eq_spec (s : String) (h : s ≠ "") :
    sortClause s = some (sortDirectiveSpec s) := by
  cases s with
  | mk data =>
    cases data with
    | nil => exact absurd rfl h
    | cons c rest =>
      by_cases hc : c = '-'
      · subst hc; simp [sortClause, sortDirectiveSpec]
      · simp [sortClause, sortDirectiveSpec, hc]

/-- The sort comprehension succeeds on an all-non-empty directive list and
computes the spec-side resolution pointwise. -/
theorem mapOption_sortClause (sort : List String) (h : ∀ s ∈ sort, s ≠ "") :
    mapOption sortClause sort = some (sort.map sortDirectiveSpec) := by
  induction sort with
  | nil => rfl
  | cons a t ih =>
    simp only [List.mem_cons] at h
    simp [mapOption, sortClause_eq_spec a (h a (Or.inl rfl)),
      ih (fun s hs => h s (Or.inr hs))]

/-! ### Claims -/

/-- C1: for every valid pagination parameters (page_number ≥ 1,
page_size ≥ 1) the `from` offset sent to the engine — the source's
conditional `0 if page_number == 1 else page_size * page_number - page_size`
— equals `page_size * (page_number - 1)`; in particular pages 1 and 2 at
page size 10 give offsets 0 and 10. -/
theorem offset_formula (pn ps : Int) (sort : List String)
    (_hpn : 1 ≤ pn) (_hps : 1 ≤ ps) :
    fromOffset { page_number := pn, page_size := ps, sort := sort } = ps * (pn - 1) ∧
    fromOffset { page_number := 1, page_size := 10 } = 0 ∧
    fromOffset { page_number := 2, page_size := 10 } = 10 := by
  refine ⟨?_, by decide, by decide⟩
  rw [fromOffset]
  by_cases h : pn = 1
  · simp [h]
  · simp [h]; ring

/-- Witness for C1 at page_number = 2, page_size = 10. -/
theorem offset_formula_witness :
    (1 : Int) ≤ 2 ∧ (1 : Int) ≤ 10 ∧
    fromOffset { page_number := 2, page_size := 10, sort := [] } = 10 * (2 - 1) :=
  ⟨by decide, by decide, (offset_formula 2 10 [] (by decide) (by decide)).1⟩

/-- C6: the engine sort clause lists the directives in order, a leading `-`
giving (field without the `-`, descending) and anything else (field,
ascending), with `("_score", desc)` appended last; an empty directive list
gives relevance-only sorting, and `"-imdb_rating"` / `"imdb_rating"` give
descending / ascending order on `imdb_rating`. -/
theorem sort_directives_spec :
    (∀ sort : List String, (∀ s ∈ sort, s ≠ "") →
      buildSort sort = some (sort.map sortDirectiveSpec ++ [("_score", SortDir.desc)])) ∧
    buildSort [] = some [("_score", SortDir.desc)] ∧
    buildSort ["-imdb_rating"] =
      some [("imdb_rating", SortDir.desc), ("_score", SortDir.desc)] ∧
    buildSort ["imdb_rating"] =
      some [("imdb_rating", SortDir.asc), ("_score", SortDir.desc)] := by
  refine ⟨fun sort h => ?_, by decide, by decide, by decide⟩
  simp [buildSort, mapOption_sortClause sort h]

/-- Witness for C6 on the directive list `["-imdb_rating", "title"]`. -/
theorem sort_directives_spec_witness :
    (∀ s ∈ ["-imdb_rating", "title"], s ≠ "") ∧
    buildSort ["-imdb_rating", "title"] =
      some (["-imdb_rating", "title"].map sortDirectiveSpec ++ [("_score", SortDir.desc)]) :=
  ⟨by decide, sort_directives_spec.1 ["-imdb_rating", "title"] (by decide)⟩

/-- C9: building the sort clause inspects the first character of each
directive, so it succeeds exactly when no directive is the empty string —
in particular it fails on a params whose sort list contains `""`. -/
theorem buildSort_total_iff :
    (∀ params : CommonQueryParams, (buildSort params.sort).isSome ↔ "" ∉ params.sort) ∧
    buildSort [""] = none := by
  constructor
  · intro params
    rw [buildSort]
    have key : ∀ l : List String, (mapOption sortClause l).isSome ↔ "" ∉ l := by
      intro l
      induction l with
      | nil => simp [mapOption]
      | cons a t ih =>
        by_cases ha : a = ""
        · subst ha; simp [mapOption, sortClause]
        · simp [mapOption, sortClause_eq_spec a ha, ih, ha, Ne.symm ha]
    simpa [Option.isSome_map] using key params.sort
  · decide

/-- Witness for C9: an all-non-empty directive list succeeds. -/
theorem buildSort_total_iff_witness :
    (buildSort ["title"]).isSome :=
  (buildSort_total_iff.1 { page_number := 1, page_size := 10, sort := ["title"] }).mpr
    (by decide)

/-- C3: role derivation returns, for each film in order, a `PersonFilm`
whose role list holds exactly the roles among {actor, writer, director}
whose flattened name list contains the person's full name; on a film with
`actors_names=["Alice"]`, `writers_names=[]`, `directors_names=["Alice"]`
and full name `"Alice"` the derived roles are actor and director, and never
writer. -/
theorem roles_from_filmworks_spec (p : Person) (films : List Film) :
    List.Forall₂ (fun (fw : Film) (pf : PersonFilm) =>
        pf.id = fw.id ∧
        ∀ r, r ∈ pf.roles ↔ r ∈ PERSON_ROLES ∧ p.full_name ∈ roleNames fw r)
      films (getRolesFromFilmworks p films) ∧
    getRolesFromFilmworks { id := "p1", full_name := "Alice" }
        [{ id := "f1", title := "T", description := none, imdb_rating := none,
           actors_names := ["Alice"], writers_names := [], directors_names := ["Alice"] }] =
      [{ id := "f1", roles := ["actor", "director"] }] ∧
    (∀ pf ∈ getRolesFromFilmworks { id := "p1", full_name := "Alice" }
        [{ id := "f1", title := "T", description := none, imdb_rating := none,
           actors_names := ["Alice"], writers_names := [], directors_names := ["Alice"] }],
      "writer" ∉ pf.roles) := by
  refine ⟨?_, by decide, by decide⟩
  induction films with
  | nil => exact List.Forall₂.nil
  | cons fw t ih =>
    refine List.Forall₂.cons ⟨rfl, fun r => ?_⟩ ih
    simp [getRolesFromFilmworks, List.mem_filter]

/-- C7: per entity kind, writing an entity through the service's cache
write (serialize, store under `"{entity_kind}_{id}"`) and reading the same
key back through the service's cache read returns the entity unchanged. -/
theorem cache_roundtrip (cache : CacheState) (f : Film) (g : Genre) (p : Person) :
    getFromCache filmServiceDef (putToCache filmServiceDef cache f) f.id = .ok (some f) ∧
    getFromCache genreServiceDef (putToCache genreServiceDef cache g) g.id = .ok (some g) ∧
    getFromCache personServiceDef (putToCache personServiceDef cache p) p.id = .ok (some p) := by
  refine ⟨?_, ?_, ?_⟩ <;>
    simp [getFromCache, putToCache, cacheLookup, List.lookup, filmServiceDef,
      genreServiceDef, personServiceDef, validateFilm_dump, validateGenre_dump,
      validatePerson_dump]

/-- C5: `get_by_id` is a cache-aside read-through.  With the cache key
`"{entity_name}_{id}"`: on a deserializable cache hit the cached entity is
returned and the cache is untouched, for any engine (so the engine is not
consulted); on a miss with the engine reporting absent, the result is
absent with no cache write (no negative caching) and no failure; on a miss
with a document found and hydrated, the entity is returned after being
written to the cache with the fixed TTL `CACHE_EXPIRE_IN_SECONDS = 300`. -/
theorem get_by_id_cache_aside {α : Type} (svc : ServiceDef α) (cache : CacheState)
    (engine : String → Option Json) (id : String) :
    CACHE_EXPIRE_IN_SECONDS = 300 ∧
    (∀ data item, cacheLookup cache (svc.entity_name ++ "_" ++ id) = some data →
      svc.validate data = some item →
      serviceGetById svc cache engine id = .ok (some item, cache)) ∧
    (cacheLookup cache (svc.entity_name ++ "_" ++ id) = none → engine id = none →
      serviceGetById svc cache engine id = .ok (none, cache)) ∧
    (∀ doc item, cacheLookup cache (svc.entity_name ++ "_" ++ id) = none →
      engine id = some doc → svc.validate doc = some item →
      serviceGetById svc cache engine id =
        .ok (some item, (svc.entity_name ++ "_" ++ svc.idOf item, svc.dump item, 300) :: cache)) := by
  refine ⟨rfl, ?_, ?_, ?_⟩
  · intro data item h1 h2
    simp [serviceGetById, getFromCache, h1, h2]
  · intro h1 h2
    simp [serviceGetById, getFromCache, h1, h2]
  · intro doc item h1 h2 h3
    simp [serviceGetById, getFromCache, putToCache, h1, h2, h3,
      svc.validate_truthy doc item h3, CACHE_EXPIRE_IN_SECONDS]

/-- Witness for C5: an empty cache, an engine holding one genre document. -/
theorem get_by_id_cache_aside_witness :
    cacheLookup [] ("genres" ++ "_" ++ "g1") = none ∧
    validateGenre (dumpGenre { id := "g1", name := "Drama", description := none }) =
      some { id := "g1", name := "Drama", description := none } ∧
    serviceGetById genreServiceDef []
        (fun _ => some (dumpGenre { id := "g1", name := "Drama", description := none }))
        "g1" =
      .ok (some { id := "g1", name := "Drama", description := none },
           [("genres_g1",
             dumpGenre { id := "g1", name := "Drama", description := none }, 300)]) :=
  ⟨rfl, rfl,
   (get_by_id_cache_aside genreServiceDef []
       (fun _ => some (dumpGenre { id := "g1", name := "Drama", description := none }))
       "g1").2.2.2
     (dumpGenre { id := "g1", name := "Drama", description := none })
     { id := "g1", name := "Drama", description := none } rfl rfl rfl⟩

/-- C4 counterexample: the generic `Service.get_by_id` does not treat a
hydration failure as absent — on a (truthy) engine document that fails
validation, such as `{"foo": 1}`, the failure propagates to the caller, and
so does a failing document inside the listing hydration of
`FilmService.search`. -/
theorem hydration_failure_counterexample :
    serviceGetById genreServiceDef []
      (fun _ => some (Json.obj [("foo", Json.num 1)])) "g1" = .error .mk ∧
    serviceGetById genreServiceDef []
      (fun _ => some (Json.obj [("foo", Json.num 1)])) "g1" ≠ .ok (none, []) ∧
    filmSearchHydrate [Json.obj [("foo", Json.num 1)]] = .error .mk := by
  refine ⟨rfl, ?_, rfl⟩
  rw [show serviceGetById genreServiceDef []
    (fun _ => some (Json.obj [("foo", Json.num 1)])) "g1" = .error .mk from rfl]
  simp

/-- C4 amended: only `GenreService.get_by_id` logs a hydration failure of a
truthy engine document and treats it as absent; on the same document the
generic `Service.get_by_id` propagates the failure to the caller, and in
the listing hydration of `FilmService.search` any failing document fails
the whole call instead of being skipped; a falsy engine document (`{}`) is
skipped by both get-by-id guards and treated as absent without any log. -/
theorem hydration_failure_handling :
    (∀ (cache : CacheState) (engine : String → Option Json) (id : String) (doc : Json),
      getFromCache genreServiceDef cache id = .ok none → engine id = some doc →
      doc.truthy = true → validateGenre doc = none →
      genreGetById cache engine id = .ok (none, cache, true)) ∧
    (∀ (α : Type) (svc : ServiceDef α) (cache : CacheState)
        (engine : String → Option Json) (id : String) (doc : Json),
      getFromCache svc cache id = .ok none → engine id = some doc →
      doc.truthy = true → svc.validate doc = none →
      serviceGetById svc cache engine id = .error .mk) ∧
    (∀ (raws : List Json) (doc : Json), doc ∈ raws → validateFilm doc = none →
      filmSearchHydrate raws = .error .mk) ∧
    (∀ (cache : CacheState) (engine : String → Option Json) (id : String),
      getFromCache genreServiceDef cache id = .ok none →
      engine id = some (Json.obj []) →
      genreGetById cache engine id = .ok (none, cache, false) ∧
      serviceGetById genreServiceDef cache engine id = .ok (none, cache)) := by
  refine ⟨?_, ?_, ?_, ?_⟩
  · intro cache engine id doc h1 h2 ht h3
    simp [genreGetById, h1, h2, ht, h3]
  · intro α svc cache engine id doc h1 h2 ht h3
    simp [serviceGetById, h1, h2, ht, h3]
  · intro raws doc hmem hval
    induction raws with
    | nil => simp at hmem
    | cons j t ih =>
      rcases List.mem_cons.mp hmem with h | h
      · subst h
        simp [filmSearchHydrate, hydrateList, hval]
      · have hrec := ih h
        simp only [filmSearchHydrate] at hrec
        cases haj : validateFilm j with
        | none => simp [filmSearchHydrate, hydrateList, haj]
        | some a => simp [filmSearchHydrate, hydrateList, haj, hrec, Except.map]
  · intro cache engine id h1 h2
    constructor
    · simp [genreGetById, h1, h2, Json.truthy, List.isEmpty]
    · simp [serviceGetById, h1, h2, Json.truthy, List.isEmpty]

/-- Witness for the amended C4 at the truthy invalid document `{"foo": 1}`
and the falsy document `{}`. -/
theorem hydration_failure_handling_witness :
    getFromCache genreServiceDef [] "g1" = .ok none ∧
    (Json.obj [("foo", Json.num 1)]).truthy = true ∧
    validateGenre (Json.obj [("foo", Json.num 1)]) = none ∧
    genreGetById [] (fun _ => some (Json.obj [("foo", Json.num 1)])) "g1" =
      .ok (none, [], true) ∧
    serviceGetById genreServiceDef []
      (fun _ => some (Json.obj [("foo", Json.num 1)])) "g1" = .error .mk ∧
    filmSearchHydrate [Json.obj [("foo", Json.num 1)]] = .error .mk ∧
    genreGetById [] (fun _ => some (Json.obj [])) "g1" = .ok (none, [], false) ∧
    serviceGetById genreServiceDef [] (fun _ => some (Json.obj [])) "g1" =
      .ok (none, []) :=
  ⟨rfl, rfl, rfl,
   hydration_failure_handling.1 [] (fun _ => some (Json.obj [("foo", Json.num 1)]))
     "g1" (Json.obj [("foo", Json.num 1)]) rfl rfl rfl rfl,
   hydration_failure_handling.2.1 Genre genreServiceDef []
     (fun _ => some (Json.obj [("foo", Json.num 1)])) "g1"
     (Json.obj [("foo", Json.num 1)]) rfl rfl rfl rfl,
   hydration_failure_handling.2.2.1 [Json.obj [("foo", Json.num 1)]]
     (Json.obj [("foo", Json.num 1)]) (by simp) rfl,
   (hydration_failure_handling.2.2.2 [] (fun _ => some (Json.obj [])) "g1" rfl rfl).1,
   (hydration_failure_handling.2.2.2 [] (fun _ => some (Json.obj [])) "g1" rfl rfl).2⟩

/-- C8 counterexample: a backend connectivity failure during `put` is not
surfaced as `ConnectionCacheError` — the backend's own `ConnectionError`
escapes unconverted. -/
theorem put_conn_error_counterexample :
    redisCachePut .connError = .error .redisConnectionError ∧
    CacheFailure.redisConnectionError ≠ CacheFailure.connectionCacheError :=
  ⟨rfl, by decide⟩

/-- C8 amended: a backend connectivity failure is always surfaced as a
failure and never absorbed or treated as a miss; `get` converts it to the
distinct `ConnectionCacheError`, while `put` lets the backend's own
`ConnectionError` propagate unconverted; successful backend calls pass
through unchanged. -/
theorem cache_conn_failure_surfaced :
    redisCacheGet .connError = .error .connectionCacheError ∧
    redisCachePut .connError = .error .redisConnectionError ∧
    (∀ v, redisCacheGet (.ok v) = .ok v) ∧
    (∀ u : Unit, redisCachePut (.ok u) = .ok ()) :=
  ⟨rfl, rfl, fun _ => rfl, fun _ => rfl⟩

/-- C10: `get_by_text_field` issues two engine `text_search` calls with
identical arguments (one search field, the given text, no pagination
params), discards the first result, and returns the entity hydrated from
the first document of the second result — absent when that result is
empty. -/
theorem get_by_text_field_double_call {α : Type} (svc : ServiceDef α)
    (oracle oracle2 : Nat → List Json) (search_field search_text : String) :
    (getByTextField svc oracle search_field search_text).2 =
      [{ search_fields := [search_field], search_query := some search_text, params := none },
       { search_fields := [search_field], search_query := some search_text, params := none }] ∧
    (oracle2 1 = oracle 1 →
      (getByTextField svc oracle2 search_field search_text).1 =
        (getByTextField svc oracle search_field search_text).1) ∧
    (oracle 1 = [] →
      (getByTextField svc oracle search_field search_text).1 = .ok none) ∧
    (∀ doc rest item, oracle 1 = doc :: rest → svc.validate doc = some item →
      (getByTextField svc oracle search_field search_text).1 = .ok (some item)) := by
  refine ⟨rfl, ?_, ?_, ?_⟩
  · intro h
    simp [getByTextField, h]
  · intro h
    simp [getByTextField, h]
  · intro doc rest item h1 h2
    simp [getByTextField, h1, h2]

/-- Witness for C10: the second response holds one genre document. -/
theorem get_by_text_field_double_call_witness :
    (fun n => if n = 0 then ([] : List Json)
              else [dumpGenre { id := "g1", name := "Drama", description := none }]) 1 =
      [dumpGenre { id := "g1", name := "Drama", description := none }] ∧
    validateGenre (dumpGenre { id := "g1", name := "Drama", description := none }) =
      some { id := "g1", name := "Drama", description := none } ∧
    (getByTextField genreServiceDef
        (fun n => if n = 0 then ([] : List Json)
                  else [dumpGenre { id := "g1", name := "Drama", description := none }])
        "name" "Drama").1 =
      .ok (some { id := "g1", name := "Drama", description := none }) :=
  ⟨rfl, rfl,
   (get_by_text_field_double_call genreServiceDef
       (fun n => if n = 0 then ([] : List Json)
                 else [dumpGenre { id := "g1", name := "Drama", description := none }])
       (fun _ => []) "name" "Drama").2.2.2
     (dumpGenre { id := "g1", name := "Drama", description := none }) []
     { id := "g1", name := "Drama", description := none } rfl rfl⟩

/-- A document matches the boolean query that `_search` builds for
`get_person_films` exactly when the person id appears among the ids of its
actors, writers, or directors nested sub-documents. -/
theorem personQuery_matches (pid : String) (f : Film) :
    (boolMatches (fun _ _ => false) (buildESQuery none (nestedObjectsFor pid)) f = true) ↔
      ((∃ p ∈ f.actors, p.id = pid) ∨ (∃ p ∈ f.writers, p.id = pid) ∨
       (∃ p ∈ f.directors, p.id = pid)) := by
  simp [boolMatches, buildESQuery, nestedObjectsFor, PERSON_ROLES,
    nestedClauseMatches, filmNestedPath, filmPersonField, List.any_eq_true]
  exact or_congr_right or_comm

/-- C2: on the first page with a page size no smaller than the number of
matching documents, `get_person_films(person_id=X)` returns exactly the
films in which X appears in the actors, writers, or directors nested path —
the OR of the three nested filters — and a duplicate-free index yields each
matching film exactly once. -/
theorem list_by_person_union (index : List Film) (pid : String)
    (params : CommonQueryParams) (hpage : params.page_number = 1)
    (hsize : (index.filter (fun f =>
        boolMatches (fun _ _ => false) (buildESQuery none (nestedObjectsFor pid)) f)).length
      ≤ params.page_size.toNat) :
    getPersonFilmsModel index pid params =
      index.filter (fun f =>
        boolMatches (fun _ _ => false) (buildESQuery none (nestedObjectsFor pid)) f) ∧
    (∀ f, f ∈ getPersonFilmsModel index pid params ↔
      f ∈ index ∧ ((∃ p ∈ f.actors, p.id = pid) ∨ (∃ p ∈ f.writers, p.id = pid) ∨
                   (∃ p ∈ f.directors, p.id = pid))) ∧
    (index.Nodup → (getPersonFilmsModel index pid params).Nodup) := by
  have hoff : fromOffset params = 0 := by simp [fromOffset, hpage]
  have heq : getPersonFilmsModel index pid params =
      index.filter (fun f =>
        boolMatches (fun _ _ => false) (buildESQuery none (nestedObjectsFor pid)) f) := by
    rw [getPersonFilmsModel, engineListFilms, paginate, hoff]
    simpa using List.take_of_length_le hsize
  refine ⟨heq, fun f => ?_, fun hnd => ?_⟩
  · rw [heq, List.mem_filter, personQuery_matches]
  · rw [heq]; exact hnd.filter _

/-- Witness for C2: a one-film index where the person is only a writer;
the film is returned, exactly once. -/
theorem list_by_person_union_witness :
    (({ page_number := 1, page_size := 10, sort := [] } : CommonQueryParams).page_number = 1) ∧
    getPersonFilmsModel
        [{ id := "f1", title := "T", description := none, imdb_rating := none,
           writers := [{ id := "alice", name := "Alice" }] }] "alice"
        { page_number := 1, page_size := 10, sort := [] } =
      [{ id := "f1", title := "T", description := none, imdb_rating := none,
         writers := [{ id := "alice", name := "Alice" }] }] := by
  refine ⟨rfl, ?_⟩
  have h := (list_by_person_union
      [{ id := "f1", title := "T", description := none, imdb_rating := none,
         writers := [{ id := "alice", name := "Alice" }] }] "alice"
      { page_number := 1, page_size := 10, sort := [] } rfl (by decide)).1
  rw [h]
  decide
